import Mathlib

/-!
Shallow embedding of `src/trafficgo/model/ProcessingThreadModel.py` (the
per-camera frame-processing worker) and proofs about it.

The embedding mirrors the Python source:
* the sliding-window FPS estimator (`updateFPS`, lines 137-158) becomes a
  pure state-transition function on `FpsState`, decomposed into the three
  sequential stanzas of the Python body (push, evict, publish);
* the run loop (`run`, lines 39-131) becomes a step function `runIter`
  consuming one scheduler slot per top-of-loop check, with the external
  OpenCV primitives abstracted as a record of functions (`CvOps`) that may
  raise, exactly as the spec treats them ("pure functions with documented
  semantics, not reimplemented here");
* frames are numpy arrays: either 2-D (single channel) or 3-D
  (height x width x channels) nested lists, so that `shape[2]` is partial
  exactly where numpy raises IndexError;
* controller entry points `stop`, `setROI`, `updateImageProcessingFlags`
  become state transformers.

Code of the repository that is imported but not present under `src/`
(`Config.py`, `Structures.py`, `MatToQImageModel.py`) is modelled from the
spec; each such definition carries a doc comment saying so.
-/

namespace TrafficGo

/-- Modelled from the spec: the fixed FPS window length from `Config.py`
(not under `src/`); the spec fixes the window length at 32 ("rate estimator
window size 32", section 8). -/
def PROCESSING_FPS_STAT_QUEUE_LENGTH : Nat := 32

/-- Modelled from the spec: the statistics snapshot structure from
`Structures.py` (not under `src/`): "{framesProcessed: monotonically
increasing counter, averageFPS: floating value updated once per window}".
Field names are the ones the source code uses on this object. -/
structure ThreadStatisticsData where
  averageFPS : ℚ
  nFramesProcessed : Nat
deriving DecidableEq

/-- State owned by the rate estimator inside `ProcessingThreadModel`:
`self.sampleNumber`, `self.fpsSum`, `self.fps` (a FIFO queue, front of the
list is the oldest element), and `self.statsData` (lines 29-31 and 35 of
the source initialise these). -/
structure FpsState where
  sampleNumber : Nat
  fpsSum : ℚ
  fps : List ℚ
  statsData : ThreadStatisticsData
deriving DecidableEq

/-- Estimator state right after `__init__` (lines 29-31: `sampleNumber = 0`,
`fpsSum = 0.0`, `fps = Queue()`); the initial statistics-snapshot contents
live in the missing `Structures.py`, so they stay parameters. -/
def initFps (averageFPS : ℚ) (nFramesProcessed : Nat) : FpsState :=
  { sampleNumber := 0, fpsSum := 0, fps := [],
    statsData := { averageFPS := averageFPS, nFramesProcessed := nFramesProcessed } }

/-- Instantaneous rate `1000 / timeElapsed` pushed by `updateFPS` (line 140,
Python 3 true division). -/
def instRate (timeElapsed : ℤ) : ℚ := 1000 / (timeElapsed : ℚ)

/-- First stanza of `updateFPS` (lines 139-142): if `timeElapsed > 0`, push
the instantaneous rate and increment the sample counter. -/
def fpsPushStage (s : FpsState) (timeElapsed : ℤ) : FpsState :=
  if timeElapsed > 0 then
    { s with fps := s.fps ++ [instRate timeElapsed], sampleNumber := s.sampleNumber + 1 }
  else s

/-- Second stanza of `updateFPS` (lines 145-146): if the queue exceeds the
configured capacity, discard the oldest element. -/
def fpsEvictStage (s : FpsState) : FpsState :=
  if s.fps.length > PROCESSING_FPS_STAT_QUEUE_LENGTH then
    { s with fps := s.fps.tail }
  else s

/-- Third stanza of `updateFPS` (lines 149-158): when the queue holds
exactly the window length and exactly that many samples have accumulated,
drain the queue into `fpsSum`, publish `fpsSum / N` as the average, and
reset `fpsSum` and `sampleNumber`. -/
def fpsPublishStage (s : FpsState) : FpsState :=
  if s.fps.length = PROCESSING_FPS_STAT_QUEUE_LENGTH ∧
      s.sampleNumber = PROCESSING_FPS_STAT_QUEUE_LENGTH then
    { s with
      fps := [],
      fpsSum := 0,
      sampleNumber := 0,
      statsData := { s.statsData with
        averageFPS := (s.fpsSum + s.fps.sum) / (PROCESSING_FPS_STAT_QUEUE_LENGTH : ℚ) } }
  else s

/-- The whole of `updateFPS(timeElapsed)` (lines 137-158): the three
stanzas run in source order. -/
def updateFPS (s : FpsState) (timeElapsed : ℤ) : FpsState :=
  fpsPublishStage (fpsEvictStage (fpsPushStage s timeElapsed))

/-- A sequence of `updateFPS` calls, oldest sample first. -/
def feedSamples (s : FpsState) (ts : List ℤ) : FpsState :=
  ts.foldl updateFPS s

/-- Frames are numpy arrays as OpenCV produces them: either a 2-D array
(an already single-channel image, `shape == (h, w)`) or a 3-D array
(`shape == (h, w, channels)`). -/
inductive Mat where
  | mat2 (dat : List (List ℚ))
  | mat3 (dat : List (List (List ℚ)))
deriving DecidableEq

deriving instance DecidableEq for Except

/-- The numpy `shape` tuple of a frame. -/
def Mat.shape : Mat → List Nat
  | Mat.mat2 d => [d.length, (d.headD []).length]
  | Mat.mat3 d => [d.length, (d.headD []).length, ((d.headD []).headD []).length]

/-- Number of rows (`shape[0]`). -/
def matRows : Mat → Nat
  | Mat.mat2 d => d.length
  | Mat.mat3 d => d.length

/-- Number of columns (`shape[1]`). -/
def matCols : Mat → Nat
  | Mat.mat2 d => (d.headD []).length
  | Mat.mat3 d => (d.headD []).length

/-- Channel count of a 3-D array (`shape[2]` when it exists). -/
def channels3 (d : List (List (List ℚ))) : Nat :=
  ((d.headD []).headD []).length

/-- Python slice `l[a:b]` for `0 ≤ a` and `0 ≤ b` (the regime the run loop
uses: ROI coordinates are applied as `[y:y+h, x:x+w]`). -/
def sliceList (a b : ℤ) (l : List α) : List α :=
  (l.drop a.toNat).take (b.toNat - a.toNat)

/-- The `QRect` the worker stores as `self.currentROI`. -/
structure Rect where
  x : ℤ
  y : ℤ
  width : ℤ
  height : ℤ
deriving DecidableEq

/-- The crop at lines 59-61 of the source:
`frame[roi.y : roi.y + roi.height, roi.x : roi.x + roi.width].copy()`. -/
def cropROI (m : Mat) (r : Rect) : Mat :=
  match m with
  | Mat.mat2 d =>
      Mat.mat2 ((sliceList r.y (r.y + r.height) d).map (sliceList r.x (r.x + r.width)))
  | Mat.mat3 d =>
      Mat.mat3 ((sliceList r.y (r.y + r.height) d).map (sliceList r.x (r.x + r.width)))

/-- A rectangle lies within the bounds of a frame. -/
def roiFits (r : Rect) (m : Mat) : Prop :=
  0 ≤ r.x ∧ 0 ≤ r.y ∧ 0 ≤ r.width ∧ 0 ≤ r.height ∧
  r.x + r.width ≤ (matCols m : ℤ) ∧ r.y + r.height ≤ (matRows m : ℤ)

instance (r : Rect) (m : Mat) : Decidable (roiFits r m) := by
  unfold roiFits
  exact inferInstance

/-- Modelled from the spec: the `ImageProcessingFlags` bundle from
`Structures.py` (not under `src/`): "boolean toggles {grayscale, smooth,
dilate, erode, flip, edgeDetect, speedOverlay}". Field names are the ones
the source code reads on this object (lines 68-113, 170-176). -/
structure ImageProcessingFlags where
  grayscaleOn : Bool
  smoothOn : Bool
  dilateOn : Bool
  erodeOn : Bool
  flipOn : Bool
  cannyOn : Bool
  speedOn : Bool
deriving DecidableEq

/-- Modelled from the spec: the `ImageProcessingSettings` bundle from
`Structures.py` (not under `src/`): "numeric parameters keyed to each
optional transform". Field names are the ones the source code reads on
this object (lines 75-110, 180-191). -/
structure ImageProcessingSettings where
  smoothType : ℤ
  smoothParam1 : ℤ
  smoothParam2 : ℤ
  smoothParam3 : ℤ
  smoothParam4 : ℤ
  dilateNumberOfIterations : ℤ
  erodeUrlOfIterations : ℤ
  flipCode : ℤ
  cannyThreshold1 : ℤ
  cannyThreshold2 : ℤ
  cannyApertureSize : ℤ
  cannyL2gradient : Bool
deriving DecidableEq

/-- Failures an OpenCV-level operation can raise into the run loop. -/
inductive CvErr where
  | indexError
  | opError
deriving DecidableEq

/-- External OpenCV primitives (and the Mat-to-QImage conversion of the
repository's `MatToQImageModel.py`, which is not under `src/`): the spec
treats them as opaque "pure functions with documented semantics, not
reimplemented here", so the embedding takes them as parameters. Each image
transform may raise (TransformFailure in the spec's error taxonomy). The
fixed 3x3 structuring element of dilate/erode (line 14) is absorbed into
the corresponding operation. -/
structure CvOps where
  cvtColor : Mat → Except CvErr Mat
  blur : ℤ → ℤ → Mat → Except CvErr Mat
  gaussianBlur : ℤ → ℤ → ℤ → ℤ → Mat → Except CvErr Mat
  medianBlur : ℤ → Mat → Except CvErr Mat
  dilate : ℤ → Mat → Except CvErr Mat
  erode : ℤ → Mat → Except CvErr Mat
  flip : ℤ → Mat → Except CvErr Mat
  canny : ℤ → ℤ → ℤ → Bool → Mat → Except CvErr Mat
  putText : Mat → Except CvErr Mat
  matToQImage : Mat → Mat

/-- Grayscale step (lines 68-71). Python's `and` short-circuits, so
`shape[2]` is only read when the flag is on; reading it on a 2-D array
raises IndexError. -/
def grayscaleStep (ops : CvOps) (flags : ImageProcessingFlags) (m : Mat) :
    Except CvErr Mat :=
  if flags.grayscaleOn then
    match m.shape.get? 2 with
    | Option.none => Except.error CvErr.indexError
    | Option.some c => if c = 3 ∨ c = 4 then ops.cvtColor m else Except.ok m
  else Except.ok m

/-- Smoothing step (lines 74-90): a discriminant selects box, Gaussian or
median blur; any other discriminant value leaves the frame untouched. -/
def smoothStep (ops : CvOps) (flags : ImageProcessingFlags)
    (st : ImageProcessingSettings) (m : Mat) : Except CvErr Mat :=
  if flags.smoothOn then
    if st.smoothType = 0 then ops.blur st.smoothParam1 st.smoothParam2 m
    else if st.smoothType = 1 then
      ops.gaussianBlur st.smoothParam1 st.smoothParam2 st.smoothParam3 st.smoothParam4 m
    else if st.smoothType = 2 then ops.medianBlur st.smoothParam1 m
    else Except.ok m
  else Except.ok m

/-- Dilation step (lines 93-95). -/
def dilateStep (ops : CvOps) (flags : ImageProcessingFlags)
    (st : ImageProcessingSettings) (m : Mat) : Except CvErr Mat :=
  if flags.dilateOn then ops.dilate st.dilateNumberOfIterations m else Except.ok m

/-- Erosion step (lines 97-99). -/
def erodeStep (ops : CvOps) (flags : ImageProcessingFlags)
    (st : ImageProcessingSettings) (m : Mat) : Except CvErr Mat :=
  if flags.erodeOn then ops.erode st.erodeUrlOfIterations m else Except.ok m

/-- Flip step (lines 101-103). -/
def flipStep (ops : CvOps) (flags : ImageProcessingFlags)
    (st : ImageProcessingSettings) (m : Mat) : Except CvErr Mat :=
  if flags.flipOn then ops.flip st.flipCode m else Except.ok m

/-- Canny edge-detection step (lines 105-110). -/
def cannyStep (ops : CvOps) (flags : ImageProcessingFlags)
    (st : ImageProcessingSettings) (m : Mat) : Except CvErr Mat :=
  if flags.cannyOn then
    ops.canny st.cannyThreshold1 st.cannyThreshold2 st.cannyApertureSize
      st.cannyL2gradient m
  else Except.ok m

/-- Speed-estimation overlay step (lines 113-115). -/
def speedStep (ops : CvOps) (flags : ImageProcessingFlags) (m : Mat) :
    Except CvErr Mat :=
  if flags.speedOn then ops.putText m else Except.ok m

/-- The seven-step processing block of one iteration (lines 67-115),
applied to the ROI crop; an exception in any step aborts the chain. -/
def processPipeline (ops : CvOps) (flags : ImageProcessingFlags)
    (st : ImageProcessingSettings) (m : Mat) : Except CvErr Mat := do
  let m1 ← grayscaleStep ops flags m
  let m2 ← smoothStep ops flags st m1
  let m3 ← dilateStep ops flags st m2
  let m4 ← erodeStep ops flags st m3
  let m5 ← flipStep ops flags st m4
  let m6 ← cannyStep ops flags st m5
  speedStep ops flags m6

/-- Control state of the worker thread: in the loop, exited cleanly via the
stop flag (final statistics published), or killed by a propagating
exception. -/
inductive Mode where
  | Running
  | Stopped
  | Errored
deriving DecidableEq

/-- Observable emissions of the run loop: `newFrame.emit` (line 125) and
`updateStatisticsInGUI.emit` (line 129). -/
inductive Event where
  | frameEmit (img : Mat)
  | statsEmit (stats : ThreadStatisticsData)
deriving DecidableEq

/-- Boolean discriminator for frame emissions. -/
def isFrameEmitB : Event → Bool
  | Event.frameEmit _ => true
  | Event.statsEmit _ => false

/-- Boolean discriminator for statistics emissions. -/
def isStatsEmitB : Event → Bool
  | Event.frameEmit _ => false
  | Event.statsEmit _ => true

/-- One scheduler slot for the run loop: the elapsed milliseconds
`self.t.elapsed()` returns at line 54, and the newest frame the shared
buffer returns at line 59. -/
structure IterInput where
  elapsed : ℤ
  sourceFrame : Mat
deriving DecidableEq

/-- The mutable worker state of `ProcessingThreadModel` that the claims
touch: the stop flag, the saved processing time, the estimator state, the
current ROI, and the two configuration bundles, plus the control mode. -/
structure WorkerState where
  mode : Mode
  doStop : Bool
  processingTime : ℤ
  fpsState : FpsState
  currentROI : Rect
  imgProcFlags : ImageProcessingFlags
  imgProcSettings : ImageProcessingSettings
deriving DecidableEq

/-- One pass of the `while True` body of `run` (lines 40-125), together
with the epilogue after `break` (lines 127-129): a top-of-loop check sees
the stop flag, clears it, makes the single `updateFPS` call, increments the
processed-frame counter and emits the final statistics snapshot; otherwise
the iteration saves the elapsed time, crops the newest frame to the current
ROI, runs the pipeline and emits the converted result. An exception from
the pipeline propagates: the loop body has no handler, so the thread dies
without the epilogue. After the loop has ended (cleanly or not) further
scheduler slots do nothing. -/
def runIter (ops : CvOps) (s : WorkerState) (inp : IterInput) :
    WorkerState × List Event :=
  if s.mode = Mode.Running then
    if s.doStop then
      let f1 := updateFPS s.fpsState s.processingTime
      let f2 := { f1 with statsData :=
        { f1.statsData with nFramesProcessed := f1.statsData.nFramesProcessed + 1 } }
      ({ s with doStop := false, mode := Mode.Stopped, fpsState := f2 },
        [Event.statsEmit f2.statsData])
    else
      let s1 := { s with processingTime := inp.elapsed }
      match processPipeline ops s.imgProcFlags s.imgProcSettings
          (cropROI inp.sourceFrame s.currentROI) with
      | Except.error _ => ({ s1 with mode := Mode.Errored }, [])
      | Except.ok m => (s1, [Event.frameEmit (ops.matToQImage m)])
  else (s, [])

/-- The run loop over a list of scheduler slots, collecting emissions. -/
def runIters (ops : CvOps) : WorkerState → List IterInput → WorkerState × List Event
  | s, [] => (s, [])
  | s, inp :: rest =>
      let r1 := runIter ops s inp
      let r2 := runIters ops r1.1 rest
      (r2.1, r1.2 ++ r2.2)

/-- The `stop` method (lines 160-162): set the stop flag under its mutex. -/
def stop (s : WorkerState) : WorkerState :=
  { s with doStop := true }

/-- The `setROI` method (lines 193-198): copy the four fields of the
argument rectangle into `self.currentROI` under the processing mutex. -/
def setROI (s : WorkerState) (roi : Rect) : WorkerState :=
  { s with currentROI :=
    { x := roi.x, y := roi.y, width := roi.width, height := roi.height } }

/-- The `updateImageProcessingFlags` method (lines 168-176): copy each of
the seven flag fields of the argument into `self.imgProcFlags` under the
processing mutex. -/
def updateImageProcessingFlags (s : WorkerState) (f : ImageProcessingFlags) :
    WorkerState :=
  { s with imgProcFlags :=
    { grayscaleOn := f.grayscaleOn
      smoothOn := f.smoothOn
      dilateOn := f.dilateOn
      erodeOn := f.erodeOn
      flipOn := f.flipOn
      cannyOn := f.cannyOn
      speedOn := f.speedOn } }

/-- All seven processing flags disabled. -/
def flagsAllOff (f : ImageProcessingFlags) : Prop :=
  f.grayscaleOn = false ∧ f.smoothOn = false ∧ f.dilateOn = false ∧
  f.erodeOn = false ∧ f.flipOn = false ∧ f.cannyOn = false ∧ f.speedOn = false

instance (f : ImageProcessingFlags) : Decidable (flagsAllOff f) := by
  unfold flagsAllOff
  exact inferInstance

/-- Concrete sample values used by witnesses and counterexamples. -/
def flagsOff : ImageProcessingFlags :=
  { grayscaleOn := false, smoothOn := false, dilateOn := false, erodeOn := false,
    flipOn := false, cannyOn := false, speedOn := false }

/-- Flags with only grayscale enabled. -/
def flagsGray : ImageProcessingFlags :=
  { flagsOff with grayscaleOn := true }

/-- Flags with only Canny edge detection enabled. -/
def flagsCanny : ImageProcessingFlags :=
  { flagsOff with cannyOn := true }

/-- Neutral settings bundle for concrete evaluations. -/
def settings0 : ImageProcessingSettings :=
  { smoothType := 0, smoothParam1 := 3, smoothParam2 := 3, smoothParam3 := 0,
    smoothParam4 := 0, dilateNumberOfIterations := 1, erodeUrlOfIterations := 1,
    flipCode := 0, cannyThreshold1 := 10, cannyThreshold2 := 20,
    cannyApertureSize := 3, cannyL2gradient := false }

/-- Total identity-like OpenCV primitives for concrete evaluations. -/
def ops0 : CvOps :=
  { cvtColor := fun m => Except.ok m
    blur := fun _ _ m => Except.ok m
    gaussianBlur := fun _ _ _ _ m => Except.ok m
    medianBlur := fun _ m => Except.ok m
    dilate := fun _ m => Except.ok m
    erode := fun _ m => Except.ok m
    flip := fun _ m => Except.ok m
    canny := fun _ _ _ _ m => Except.ok m
    putText := fun m => Except.ok m
    matToQImage := fun m => m }

/-- OpenCV primitives whose Canny call raises, for exercising the missing
exception handling of the run loop. -/
def opsBadCanny : CvOps :=
  { ops0 with canny := fun _ _ _ _ _ => Except.error CvErr.opError }

/-- A small 1x1 3-channel source frame. -/
def frame3 : Mat := Mat.mat3 [[[1, 2, 3]]]

/-- A 2x2 3-channel source frame. -/
def frame22 : Mat := Mat.mat3 [[[1, 2, 3], [4, 5, 6]], [[7, 8, 9], [1, 1, 1]]]

/-- A 10x10 3-channel source frame. -/
def frame10 : Mat :=
  Mat.mat3 (List.replicate 10 (List.replicate 10 (List.replicate 3 0)))

/-- A worker state as `__init__` leaves it (lines 23-37: `doStop = False`,
`processingTime = 0`, estimator counters zeroed, `currentROI = QRect()`,
i.e. the zero rectangle), with the loop running and the spec-modelled
configuration bundles in their all-off/neutral shape. -/
def sampleWorker : WorkerState :=
  { mode := Mode.Running, doStop := false, processingTime := 0,
    fpsState := initFps 0 0, currentROI := { x := 0, y := 0, width := 0, height := 0 },
    imgProcFlags := flagsOff, imgProcSettings := settings0 }

/-- The sample worker with a stored 5x5 ROI. -/
def workerRoi5 : WorkerState :=
  { sampleWorker with currentROI := { x := 0, y := 0, width := 5, height := 5 } }

/-- The sample worker with only Canny enabled. -/
def workerCanny : WorkerState :=
  { sampleWorker with imgProcFlags := flagsCanny }

/-- An estimator state holding two rate samples. -/
def sampleFps : FpsState :=
  { sampleNumber := 2, fpsSum := 0, fps := [50, 40],
    statsData := { averageFPS := 0, nFramesProcessed := 0 } }

theorem fps_window_pos : 0 < PROCESSING_FPS_STAT_QUEUE_LENGTH := by decide

theorem fpsPushStage_pos (s : FpsState) (t : ℤ) (ht : 0 < t) :
    fpsPushStage s t =
      { s with fps := s.fps ++ [instRate t], sampleNumber := s.sampleNumber + 1 } := by
  simp [fpsPushStage, ht]

theorem fpsPushStage_nonpos (s : FpsState) (t : ℤ) (ht : t ≤ 0) :
    fpsPushStage s t = s := by
  have h : ¬ t > 0 := by omega
  simp [fpsPushStage, h]

theorem fpsEvictStage_le (s : FpsState)
    (h : s.fps.length ≤ PROCESSING_FPS_STAT_QUEUE_LENGTH) :
    fpsEvictStage s = s := by
  have h1 : ¬ s.fps.length > PROCESSING_FPS_STAT_QUEUE_LENGTH := by omega
  simp [fpsEvictStage, h1]

theorem fpsPublishStage_ne (s : FpsState)
    (h : s.sampleNumber ≠ PROCESSING_FPS_STAT_QUEUE_LENGTH) :
    fpsPublishStage s = s := by
  rw [fpsPublishStage, if_neg]
  rintro ⟨-, h2⟩
  exact h h2

theorem fpsPublishStage_fire (s : FpsState)
    (h1 : s.fps.length = PROCESSING_FPS_STAT_QUEUE_LENGTH)
    (h2 : s.sampleNumber = PROCESSING_FPS_STAT_QUEUE_LENGTH) :
    fpsPublishStage s =
      { s with
        fps := [],
        fpsSum := 0,
        sampleNumber := 0,
        statsData := { s.statsData with
          averageFPS := (s.fpsSum + s.fps.sum) / (PROCESSING_FPS_STAT_QUEUE_LENGTH : ℚ) } } := by
  rw [fpsPublishStage, if_pos ⟨h1, h2⟩]

theorem updateFPS_clean_push (s : FpsState) (t : ℤ)
    (hc : s.fps.length = s.sampleNumber)
    (hlt : s.sampleNumber + 1 < PROCESSING_FPS_STAT_QUEUE_LENGTH)
    (ht : 0 < t) :
    updateFPS s t =
      { s with fps := s.fps ++ [instRate t], sampleNumber := s.sampleNumber + 1 } := by
  rw [updateFPS, fpsPushStage_pos s t ht, fpsEvictStage_le, fpsPublishStage_ne]
  · simpa using (by omega : s.sampleNumber + 1 ≠ PROCESSING_FPS_STAT_QUEUE_LENGTH)
  · simp
    omega

theorem updateFPS_clean_publish (s : FpsState) (t : ℤ)
    (hc : s.fps.length = s.sampleNumber)
    (heq : s.sampleNumber + 1 = PROCESSING_FPS_STAT_QUEUE_LENGTH)
    (ht : 0 < t) :
    updateFPS s t =
      { s with
        fps := [],
        fpsSum := 0,
        sampleNumber := 0,
        statsData := { s.statsData with
          averageFPS :=
            (s.fpsSum + (s.fps.sum + instRate t)) /
              (PROCESSING_FPS_STAT_QUEUE_LENGTH : ℚ) } } := by
  rw [updateFPS, fpsPushStage_pos s t ht, fpsEvictStage_le, fpsPublishStage_fire]
  · simp
  · simp
    omega
  · simpa using heq
  · simp
    omega

theorem updateFPS_clean_nonpos (s : FpsState) (t : ℤ)
    (hc : s.fps.length = s.sampleNumber)
    (hlt : s.sampleNumber < PROCESSING_FPS_STAT_QUEUE_LENGTH)
    (ht : t ≤ 0) :
    updateFPS s t = s := by
  rw [updateFPS, fpsPushStage_nonpos s t ht, fpsEvictStage_le, fpsPublishStage_ne]
  · omega
  · omega

theorem feedSamples_nil (s : FpsState) : feedSamples s [] = s := rfl

theorem feedSamples_cons (s : FpsState) (t : ℤ) (ts : List ℤ) :
    feedSamples s (t :: ts) = feedSamples (updateFPS s t) ts := rfl

/-- Feeding positive samples that keep the queue strictly below capacity
just appends their instantaneous rates and advances the counter; nothing
else in the state (in particular the published average) changes. -/
theorem feedSamples_under (ts : List ℤ) : ∀ s : FpsState,
    (∀ t ∈ ts, 0 < t) →
    s.fps.length = s.sampleNumber →
    s.sampleNumber + ts.length < PROCESSING_FPS_STAT_QUEUE_LENGTH →
    (feedSamples s ts).fps = s.fps ++ ts.map instRate ∧
    (feedSamples s ts).sampleNumber = s.sampleNumber + ts.length ∧
    (feedSamples s ts).fpsSum = s.fpsSum ∧
    (feedSamples s ts).statsData = s.statsData := by
  induction ts with
  | nil =>
    intro s _ _ _
    simp [feedSamples_nil]
  | cons t ts ih =>
    intro s hpos hc hlen
    have ht : 0 < t := hpos t (List.mem_cons_self t ts)
    have hstep := updateFPS_clean_push s t hc (by simp at hlen; omega) ht
    rw [feedSamples_cons, hstep]
    have := ih { s with fps := s.fps ++ [instRate t], sampleNumber := s.sampleNumber + 1 }
      (fun u hu => hpos u (List.mem_cons_of_mem t hu))
      (by simp [hc]) (by simp at hlen ⊢; omega)
    simp only at this
    obtain ⟨h1, h2, h3, h4⟩ := this
    refine ⟨?_, ?_, h3, h4⟩
    · rw [h1]
      simp
    · rw [h2]
      simp
      omega

/-- Feeding positive samples that bring a clean estimator state exactly to
capacity publishes the batch average once and resets the counters. -/
theorem feedSamples_publish (ts : List ℤ) : ∀ s : FpsState,
    (∀ t ∈ ts, 0 < t) →
    s.fps.length = s.sampleNumber →
    s.fpsSum = 0 →
    s.sampleNumber + ts.length = PROCESSING_FPS_STAT_QUEUE_LENGTH →
    0 < ts.length →
    (feedSamples s ts).fps = [] ∧
    (feedSamples s ts).sampleNumber = 0 ∧
    (feedSamples s ts).fpsSum = 0 ∧
    (feedSamples s ts).statsData.averageFPS =
      (s.fps.sum + (ts.map instRate).sum) / (PROCESSING_FPS_STAT_QUEUE_LENGTH : ℚ) ∧
    (feedSamples s ts).statsData.nFramesProcessed = s.statsData.nFramesProcessed := by
  induction ts with
  | nil =>
    intro s _ _ _ _ hne
    simp at hne
  | cons t ts ih =>
    intro s hpos hc hsum hlen _
    have ht : 0 < t := hpos t (List.mem_cons_self t ts)
    by_cases hts : ts = []
    · subst hts
      simp at hlen
      have hstep := updateFPS_clean_publish s t hc hlen ht
      rw [feedSamples_cons, hstep, feedSamples_nil]
      simp [hsum]
    · have htslen : 0 < ts.length := List.length_pos.mpr hts
      have hstep := updateFPS_clean_push s t hc (by simp at hlen; omega) ht
      rw [feedSamples_cons, hstep]
      have := ih { s with fps := s.fps ++ [instRate t], sampleNumber := s.sampleNumber + 1 }
        (fun u hu => hpos u (List.mem_cons_of_mem t hu))
        (by simp [hc]) hsum (by simp at hlen ⊢; omega) htslen
      simp only at this
      obtain ⟨h1, h2, h3, h4, h5⟩ := this
      refine ⟨h1, h2, h3, ?_, h5⟩
      rw [h4]
      simp [add_assoc]

/-- Single-call invariant step: from a clean state (queue length equals the
sample counter, both strictly below the window length) any `updateFPS` call
lands in a clean state again. -/
theorem updateFPS_inv_step (s : FpsState) (t : ℤ)
    (hc : s.fps.length = s.sampleNumber)
    (hlt : s.sampleNumber < PROCESSING_FPS_STAT_QUEUE_LENGTH) :
    (updateFPS s t).fps.length = (updateFPS s t).sampleNumber ∧
    (updateFPS s t).sampleNumber < PROCESSING_FPS_STAT_QUEUE_LENGTH := by
  by_cases ht : 0 < t
  · by_cases hpub : s.sampleNumber + 1 = PROCESSING_FPS_STAT_QUEUE_LENGTH
    · rw [updateFPS_clean_publish s t hc hpub ht]
      exact ⟨rfl, fps_window_pos⟩
    · rw [updateFPS_clean_push s t hc (by omega) ht]
      constructor
      · simp [hc]
      · simp
        omega
  · rw [updateFPS_clean_nonpos s t hc hlt (by omega)]
    exact ⟨hc, hlt⟩

/-- On a clean state the eviction stanza of `updateFPS` is the identity:
the queue can never exceed capacity at the point the check runs. -/
theorem fpsEvictStage_unreachable (s : FpsState) (t : ℤ)
    (hc : s.fps.length = s.sampleNumber)
    (hlt : s.sampleNumber < PROCESSING_FPS_STAT_QUEUE_LENGTH) :
    fpsEvictStage (fpsPushStage s t) = fpsPushStage s t := by
  by_cases ht : 0 < t
  · rw [fpsPushStage_pos s t ht]
    apply fpsEvictStage_le
    simp
    omega
  · rw [fpsPushStage_nonpos s t (by omega)]
    apply fpsEvictStage_le
    omega

/-- The clean invariant propagates along any sample sequence. -/
theorem feedSamples_inv (ts : List ℤ) : ∀ s : FpsState,
    s.fps.length = s.sampleNumber →
    s.sampleNumber < PROCESSING_FPS_STAT_QUEUE_LENGTH →
    (feedSamples s ts).fps.length = (feedSamples s ts).sampleNumber ∧
    (feedSamples s ts).sampleNumber < PROCESSING_FPS_STAT_QUEUE_LENGTH := by
  induction ts with
  | nil =>
    intro s hc hlt
    exact ⟨hc, hlt⟩
  | cons t ts ih =>
    intro s hc hlt
    obtain ⟨hc1, hlt1⟩ := updateFPS_inv_step s t hc hlt
    rw [feedSamples_cons]
    exact ih (updateFPS s t) hc1 hlt1

/-- The eviction stanza only ever removes (the oldest) queue entries. -/
theorem fpsEvictStage_shrink (u : FpsState) :
    (fpsEvictStage u).fps <:+ u.fps ∧ (fpsEvictStage u).sampleNumber = u.sampleNumber := by
  unfold fpsEvictStage
  split
  · exact ⟨List.tail_suffix _, rfl⟩
  · exact ⟨List.suffix_rfl, rfl⟩

/-- The publish stanza only ever removes queue entries and only ever
lowers the sample counter (to zero). -/
theorem fpsPublishStage_shrink (u : FpsState) :
    (fpsPublishStage u).fps <:+ u.fps ∧ (fpsPublishStage u).sampleNumber ≤ u.sampleNumber := by
  unfold fpsPublishStage
  split
  · exact ⟨List.nil_suffix, Nat.zero_le _⟩
  · exact ⟨List.suffix_rfl, le_rfl⟩

/-- A worker whose loop has already ended ignores further scheduler slots. -/
theorem runIter_not_running (ops : CvOps) (s : WorkerState) (inp : IterInput)
    (h : s.mode ≠ Mode.Running) : runIter ops s inp = (s, []) := by
  simp [runIter, h]

/-- A worker whose loop has already ended emits nothing ever again. -/
theorem runIters_halted (ops : CvOps) (l : List IterInput) : ∀ s : WorkerState,
    s.mode ≠ Mode.Running → runIters ops s l = (s, []) := by
  induction l with
  | nil =>
    intro s _
    rfl
  | cons i rest ih =>
    intro s h
    simp [runIters, runIter_not_running ops s i h, ih s h]

/-- A running worker whose stop flag is set exits at the top-of-loop check:
clear the flag, run `updateFPS` once on the saved elapsed time, increment
the processed-frame counter, and emit the final statistics snapshot. -/
theorem runIter_stopflag (ops : CvOps) (s : WorkerState) (inp : IterInput)
    (hm : s.mode = Mode.Running) (hd : s.doStop = true) :
    runIter ops s inp =
      ({ s with
          doStop := false,
          mode := Mode.Stopped,
          fpsState :=
            { (updateFPS s.fpsState s.processingTime) with statsData :=
              { (updateFPS s.fpsState s.processingTime).statsData with
                nFramesProcessed :=
                  (updateFPS s.fpsState s.processingTime).statsData.nFramesProcessed + 1 } } },
        [Event.statsEmit
          { (updateFPS s.fpsState s.processingTime).statsData with
            nFramesProcessed :=
              (updateFPS s.fpsState s.processingTime).statsData.nFramesProcessed + 1 }]) := by
  simp [runIter, hm, hd]

/-- C1. Batch average update of the rate estimator: starting from an empty
queue and a sample counter of zero, feeding exactly
`PROCESSING_FPS_STAT_QUEUE_LENGTH` positive elapsed-time samples via
`updateFPS` sets the published `averageFPS` to the sum of the
instantaneous rates `1000/elapsed` divided by the window length and resets
the sample counter to zero, while feeding any fewer than
`PROCESSING_FPS_STAT_QUEUE_LENGTH` positive samples (in particular every
proper prefix of the batch, so the average is published exactly once)
leaves the published average at its initial value. -/
theorem rateEstimator_batch_average (a : ℚ) (k : Nat) (ts : List ℤ)
    (hpos : ∀ t ∈ ts, 0 < t)
    (hlen : ts.length = PROCESSING_FPS_STAT_QUEUE_LENGTH) :
    (feedSamples (initFps a k) ts).statsData.averageFPS =
      (ts.map instRate).sum / (PROCESSING_FPS_STAT_QUEUE_LENGTH : ℚ) ∧
    (feedSamples (initFps a k) ts).sampleNumber = 0 ∧
    ∀ us : List ℤ, (∀ t ∈ us, 0 < t) →
      us.length < PROCESSING_FPS_STAT_QUEUE_LENGTH →
      (feedSamples (initFps a k) us).statsData.averageFPS = a := by
  obtain ⟨-, h2, -, h4, -⟩ := feedSamples_publish ts (initFps a k) hpos rfl rfl
    (by simp [initFps, hlen]) (by rw [hlen]; exact fps_window_pos)
  refine ⟨?_, h2, ?_⟩
  · rw [h4]
    simp [initFps]
  · intro us hpos2 hlen2
    obtain ⟨-, -, -, h⟩ := feedSamples_under us (initFps a k) hpos2 rfl
      (by simp [initFps, hlen2])
    rw [h]
    simp [initFps]

theorem rateEstimator_batch_average_witness :
    (feedSamples (initFps 0 0) (List.replicate 32 (20 : ℤ))).statsData.averageFPS =
      ((List.replicate 32 (20 : ℤ)).map instRate).sum /
        (PROCESSING_FPS_STAT_QUEUE_LENGTH : ℚ) ∧
    (feedSamples (initFps 0 0) (List.replicate 32 (20 : ℤ))).sampleNumber = 0 :=
  ⟨(rateEstimator_batch_average 0 0 (List.replicate 32 (20 : ℤ))
      (by decide) (by decide)).1,
   (rateEstimator_batch_average 0 0 (List.replicate 32 (20 : ℤ))
      (by decide) (by decide)).2.1⟩

/-- C7. A non-positive elapsed-time sample is never recorded: `updateFPS`
with `timeElapsed ≤ 0` pushes nothing into the queue (the resulting queue
is a suffix of the old one, so it holds no new element) and never advances
the sample counter. -/
theorem nonpositive_sample_not_recorded (s : FpsState) (t : ℤ) (ht : t ≤ 0) :
    (updateFPS s t).fps <:+ s.fps ∧
    (updateFPS s t).sampleNumber ≤ s.sampleNumber := by
  rw [updateFPS, fpsPushStage_nonpos s t ht]
  obtain ⟨h1, h2⟩ := fpsEvictStage_shrink s
  obtain ⟨h3, h4⟩ := fpsPublishStage_shrink (fpsEvictStage s)
  exact ⟨h3.trans h1, by omega⟩

theorem nonpositive_sample_not_recorded_witness :
    ((-5 : ℤ) ≤ 0) ∧
    (updateFPS sampleFps (-5)).fps <:+ sampleFps.fps ∧
    (updateFPS sampleFps (-5)).sampleNumber ≤ sampleFps.sampleNumber :=
  ⟨by decide, (nonpositive_sample_not_recorded sampleFps (-5) (by decide)).1,
   (nonpositive_sample_not_recorded sampleFps (-5) (by decide)).2⟩

/-- C10. Rate-estimator internal invariant: after any sequence of
`updateFPS` calls from the initial empty state the sample counter equals
the queue length and both are at most `PROCESSING_FPS_STAT_QUEUE_LENGTH`;
moreover at the point the eviction check of the next call runs, the queue
cannot exceed capacity, so the oldest-sample eviction branch is the
identity (unreachable). -/
theorem fps_queue_invariant (a : ℚ) (k : Nat) (ts : List ℤ) :
    (feedSamples (initFps a k) ts).fps.length =
      (feedSamples (initFps a k) ts).sampleNumber ∧
    (feedSamples (initFps a k) ts).sampleNumber ≤ PROCESSING_FPS_STAT_QUEUE_LENGTH ∧
    ∀ t : ℤ,
      (fpsPushStage (feedSamples (initFps a k) ts) t).fps.length ≤
        PROCESSING_FPS_STAT_QUEUE_LENGTH ∧
      fpsEvictStage (fpsPushStage (feedSamples (initFps a k) ts) t) =
        fpsPushStage (feedSamples (initFps a k) ts) t := by
  obtain ⟨hc, hlt⟩ := feedSamples_inv ts (initFps a k) rfl fps_window_pos
  refine ⟨hc, le_of_lt hlt, fun t => ⟨?_, fpsEvictStage_unreachable _ t hc hlt⟩⟩
  by_cases ht : 0 < t
  · rw [fpsPushStage_pos _ t ht]
    simp
    omega
  · rw [fpsPushStage_nonpos _ t (by omega)]
    omega

/-- C6. Whole-flags replacement: `updateImageProcessingFlags` overwrites
every one of the seven flag fields with the corresponding field of the
argument (an overwrite of the complete set, not a merge) and leaves the
stored ROI and the processing settings unchanged. -/
theorem flags_whole_replacement (s : WorkerState) (f : ImageProcessingFlags) :
    (updateImageProcessingFlags s f).imgProcFlags.grayscaleOn = f.grayscaleOn ∧
    (updateImageProcessingFlags s f).imgProcFlags.smoothOn = f.smoothOn ∧
    (updateImageProcessingFlags s f).imgProcFlags.dilateOn = f.dilateOn ∧
    (updateImageProcessingFlags s f).imgProcFlags.erodeOn = f.erodeOn ∧
    (updateImageProcessingFlags s f).imgProcFlags.flipOn = f.flipOn ∧
    (updateImageProcessingFlags s f).imgProcFlags.cannyOn = f.cannyOn ∧
    (updateImageProcessingFlags s f).imgProcFlags.speedOn = f.speedOn ∧
    (updateImageProcessingFlags s f).imgProcFlags = f ∧
    (updateImageProcessingFlags s f).currentROI = s.currentROI ∧
    (updateImageProcessingFlags s f).imgProcSettings = s.imgProcSettings :=
  ⟨rfl, rfl, rfl, rfl, rfl, rfl, rfl, rfl, rfl, rfl⟩

/-- C3 counterexample: `setROI` performs no bounds validation. With a
10x10 frame current, a 20x20 request does not fit, yet the call replaces
the previously stored (and valid) 5x5 ROI with the out-of-bounds
rectangle: the previous ROI is not retained and no InvalidROI condition
exists anywhere in the code. -/
theorem setROI_invalid_counterexample :
    ¬ roiFits { x := 0, y := 0, width := 20, height := 20 } frame10 ∧
    (setROI workerRoi5 { x := 0, y := 0, width := 20, height := 20 }).currentROI ≠
      workerRoi5.currentROI ∧
    (setROI workerRoi5 { x := 0, y := 0, width := 20, height := 20 }).currentROI =
      { x := 0, y := 0, width := 20, height := 20 } := by
  refine ⟨by decide, by decide, rfl⟩

/-- C3 amended: every `setROI` call unconditionally stores the argument
rectangle (its four fields are copied into the current ROI), with no
validation against any frame bounds, no InvalidROI report, and no other
state change. -/
theorem setROI_stores_unconditionally (s : WorkerState) (r : Rect) :
    (setROI s r).currentROI = r ∧
    (setROI s r).imgProcFlags = s.imgProcFlags ∧
    (setROI s r).imgProcSettings = s.imgProcSettings ∧
    (setROI s r).fpsState = s.fpsState ∧
    (setROI s r).doStop = s.doStop ∧
    (setROI s r).mode = s.mode :=
  ⟨rfl, rfl, rfl, rfl, rfl, rfl⟩

/-- C4. Identity pipeline: for a frame and a ROI that fits its bounds,
running the processing block with all seven flags disabled returns the raw
ROI crop unchanged (every disabled step passes the frame through). -/
theorem identity_pipeline (ops : CvOps) (flags : ImageProcessingFlags)
    (st : ImageProcessingSettings) (F : Mat) (R : Rect)
    (hoff : flagsAllOff flags) (_hfit : roiFits R F) :
    processPipeline ops flags st (cropROI F R) = Except.ok (cropROI F R) := by
  obtain ⟨h1, h2, h3, h4, h5, h6, h7⟩ := hoff
  simp [processPipeline, grayscaleStep, smoothStep, dilateStep, erodeStep,
    flipStep, cannyStep, speedStep, h1, h2, h3, h4, h5, h6, h7,
    Bind.bind, Except.bind]

theorem identity_pipeline_witness :
    flagsAllOff flagsOff ∧
    roiFits { x := 0, y := 0, width := 2, height := 2 } frame22 ∧
    processPipeline ops0 flagsOff settings0
        (cropROI frame22 { x := 0, y := 0, width := 2, height := 2 }) =
      Except.ok (cropROI frame22 { x := 0, y := 0, width := 2, height := 2 }) :=
  ⟨by decide, by decide,
   identity_pipeline ops0 flagsOff settings0 frame22
     { x := 0, y := 0, width := 2, height := 2 } (by decide) (by decide)⟩

/-- C5 counterexample: with grayscale enabled, an already single-channel
frame (a 2-D numpy array, whose `shape` tuple has only two entries) makes
the guard read `shape[2]`, which raises IndexError: the step is not an
error-free no-op on such input. -/
theorem grayscale_guard_counterexample :
    flagsGray.grayscaleOn = true ∧
    (Mat.mat2 [[0]]).shape = [1, 1] ∧
    grayscaleStep ops0 flagsGray (Mat.mat2 [[0]]) = Except.error CvErr.indexError ∧
    grayscaleStep ops0 flagsGray (Mat.mat2 [[0]]) ≠ Except.ok (Mat.mat2 [[0]]) := by
  refine ⟨rfl, rfl, by decide, by decide⟩

/-- C5 amended: with grayscale enabled, the conversion is applied exactly
to 3-D frames whose channel count is 3 or 4; a 3-D frame with any other
channel count passes through unchanged without error; but a 2-D (already
single-channel) frame makes the guard raise IndexError when it reads
`shape[2]`. -/
theorem grayscale_guard_amended (ops : CvOps) (flags : ImageProcessingFlags)
    (d3 : List (List (List ℚ))) (d2 : List (List ℚ))
    (hg : flags.grayscaleOn = true) :
    ((channels3 d3 = 3 ∨ channels3 d3 = 4) →
      grayscaleStep ops flags (Mat.mat3 d3) = ops.cvtColor (Mat.mat3 d3)) ∧
    (¬ (channels3 d3 = 3 ∨ channels3 d3 = 4) →
      grayscaleStep ops flags (Mat.mat3 d3) = Except.ok (Mat.mat3 d3)) ∧
    grayscaleStep ops flags (Mat.mat2 d2) = Except.error CvErr.indexError := by
  have hshape : (Mat.mat3 d3).shape.get? 2 = some (channels3 d3) := by
    simp [Mat.shape, channels3]
  have hshape2 : (Mat.mat2 d2).shape.get? 2 = none := by
    simp [Mat.shape]
  refine ⟨fun h => ?_, fun h => ?_, ?_⟩
  · simp only [grayscaleStep, hg, if_true, hshape]
    rw [if_pos h]
  · simp only [grayscaleStep, hg, if_true, hshape]
    rw [if_neg h]
  · simp only [grayscaleStep, hg, if_true, hshape2]

theorem grayscale_guard_amended_witness :
    flagsGray.grayscaleOn = true ∧
    grayscaleStep ops0 flagsGray (Mat.mat2 [[0]]) = Except.error CvErr.indexError ∧
    grayscaleStep ops0 flagsGray (Mat.mat3 [[[1, 2, 3]]]) =
      ops0.cvtColor (Mat.mat3 [[[1, 2, 3]]]) :=
  ⟨rfl,
   (grayscale_guard_amended ops0 flagsGray [[[1, 2, 3]]] [[0]] rfl).2.2,
   (grayscale_guard_amended ops0 flagsGray [[[1, 2, 3]]] [[0]] rfl).1 (by decide)⟩

/-- C2. Stop semantics: once `stop()` has set the stop flag on a running
worker, the loop exits at the next top-of-loop check, clearing the flag;
no further frame is emitted (at iteration granularity the at-most-one
in-flight frame precedes the flag becoming visible), and exactly one final
statistics emission follows, carrying the statistics produced by the
single final `updateFPS` call on the saved elapsed time and by the single
increment of the processed-frame counter. -/
theorem stop_semantics (ops : CvOps) (s : WorkerState) (inputs : List IterInput)
    (hm : s.mode = Mode.Running) (hne : inputs ≠ []) :
    (runIters ops (stop s) inputs).1.mode = Mode.Stopped ∧
    (runIters ops (stop s) inputs).1.doStop = false ∧
    (runIters ops (stop s) inputs).2.countP isFrameEmitB = 0 ∧
    (runIters ops (stop s) inputs).2 =
      [Event.statsEmit (runIters ops (stop s) inputs).1.fpsState.statsData] ∧
    (runIters ops (stop s) inputs).1.fpsState.statsData.nFramesProcessed =
      (updateFPS s.fpsState s.processingTime).statsData.nFramesProcessed + 1 ∧
    (runIters ops (stop s) inputs).1.fpsState.statsData.averageFPS =
      (updateFPS s.fpsState s.processingTime).statsData.averageFPS ∧
    (runIters ops (stop s) inputs).1.fpsState.fps =
      (updateFPS s.fpsState s.processingTime).fps ∧
    (runIters ops (stop s) inputs).1.fpsState.sampleNumber =
      (updateFPS s.fpsState s.processingTime).sampleNumber := by
  cases inputs with
  | nil => exact absurd rfl hne
  | cons i rest =>
    have hm1 : (stop s).mode = Mode.Running := hm
    have hd1 : (stop s).doStop = true := rfl
    have h1 := runIter_stopflag ops (stop s) i hm1 hd1
    have hhalt := runIters_halted ops rest
      ({ (stop s) with
        doStop := false,
        mode := Mode.Stopped,
        fpsState :=
          { (updateFPS (stop s).fpsState (stop s).processingTime) with statsData :=
            { (updateFPS (stop s).fpsState (stop s).processingTime).statsData with
              nFramesProcessed :=
                (updateFPS (stop s).fpsState (stop s).processingTime).statsData.nFramesProcessed + 1 } } })
      (by simp)
    simp only [runIters, h1, hhalt]
    simp [stop, isFrameEmitB]

theorem stop_semantics_witness :
    sampleWorker.mode = Mode.Running ∧
    ([({ elapsed := 20, sourceFrame := frame3 } : IterInput)] : List IterInput) ≠ [] ∧
    (runIters ops0 (stop sampleWorker)
        [({ elapsed := 20, sourceFrame := frame3 } : IterInput)]).1.mode = Mode.Stopped ∧
    (runIters ops0 (stop sampleWorker)
        [({ elapsed := 20, sourceFrame := frame3 } : IterInput)]).2.countP isFrameEmitB = 0 :=
  ⟨rfl, by decide,
   (stop_semantics ops0 sampleWorker
      [({ elapsed := 20, sourceFrame := frame3 } : IterInput)] rfl (by decide)).1,
   (stop_semantics ops0 sampleWorker
      [({ elapsed := 20, sourceFrame := frame3 } : IterInput)] rfl (by decide)).2.2.1⟩

/-- C8 evaluation at the failing input: line 127 of the source sits outside
the `while` loop, so three Running iterations with a positive elapsed time
emit three frames but record zero rate samples (the estimator is untouched
during the loop); the single `updateFPS` call happens only after the stop
flag ends the loop, at which point the sample counter first becomes 1. The
claim (and the spec's step 5) say one `updateFPS` call per iteration, which
would leave three samples here. -/
theorem updateFPS_only_after_loop_exit :
    (runIters ops0 sampleWorker
        [({ elapsed := 20, sourceFrame := frame3 } : IterInput),
         ({ elapsed := 20, sourceFrame := frame3 } : IterInput),
         ({ elapsed := 20, sourceFrame := frame3 } : IterInput)]).2.countP isFrameEmitB = 3 ∧
    (runIters ops0 sampleWorker
        [({ elapsed := 20, sourceFrame := frame3 } : IterInput),
         ({ elapsed := 20, sourceFrame := frame3 } : IterInput),
         ({ elapsed := 20, sourceFrame := frame3 } : IterInput)]).1.fpsState.sampleNumber = 0 ∧
    (runIters ops0 sampleWorker
        [({ elapsed := 20, sourceFrame := frame3 } : IterInput),
         ({ elapsed := 20, sourceFrame := frame3 } : IterInput),
         ({ elapsed := 20, sourceFrame := frame3 } : IterInput)]).1.fpsState.fps = [] ∧
    (runIters ops0
        (stop (runIters ops0 sampleWorker
          [({ elapsed := 20, sourceFrame := frame3 } : IterInput),
           ({ elapsed := 20, sourceFrame := frame3 } : IterInput),
           ({ elapsed := 20, sourceFrame := frame3 } : IterInput)]).1)
        [({ elapsed := 20, sourceFrame := frame3 } : IterInput)]).1.fpsState.sampleNumber = 1 := by
  refine ⟨by decide, by decide, by decide, by decide⟩

/-- C9 counterexample: with Canny enabled and a Canny primitive that
raises, the first iteration kills the run loop (terminal Errored control
state); no error-tagged statistics event is emitted and the second
scheduler slot produces nothing, so the loop does not continue to the next
iteration. -/
theorem exception_terminates_counterexample :
    (runIters opsBadCanny workerCanny
        [({ elapsed := 20, sourceFrame := frame3 } : IterInput),
         ({ elapsed := 20, sourceFrame := frame3 } : IterInput)]).1.mode = Mode.Errored ∧
    (runIters opsBadCanny workerCanny
        [({ elapsed := 20, sourceFrame := frame3 } : IterInput),
         ({ elapsed := 20, sourceFrame := frame3 } : IterInput)]).2 = [] := by
  refine ⟨by decide, by decide⟩

/-- C9 amended: the run loop has no exception handler: an exception raised
by an enabled transform propagates out of the iteration, the worker leaves
Running permanently without any statistics emission (the epilogue is
skipped), and every later scheduler slot is inert. -/
theorem exception_propagates (ops : CvOps) (s : WorkerState) (inp : IterInput)
    (e : CvErr) (hm : s.mode = Mode.Running) (hd : s.doStop = false)
    (herr : processPipeline ops s.imgProcFlags s.imgProcSettings
        (cropROI inp.sourceFrame s.currentROI) = Except.error e) :
    runIter ops s inp =
      ({ s with processingTime := inp.elapsed, mode := Mode.Errored }, []) ∧
    ∀ rest : List IterInput,
      runIters ops { s with processingTime := inp.elapsed, mode := Mode.Errored } rest =
        ({ s with processingTime := inp.elapsed, mode := Mode.Errored }, []) := by
  constructor
  · simp [runIter, hm, hd, herr]
  · intro rest
    exact runIters_halted ops rest _ (by simp)

theorem exception_propagates_witness :
    workerCanny.mode = Mode.Running ∧
    workerCanny.doStop = false ∧
    processPipeline opsBadCanny workerCanny.imgProcFlags workerCanny.imgProcSettings
        (cropROI frame3 workerCanny.currentROI) = Except.error CvErr.opError ∧
    runIter opsBadCanny workerCanny ({ elapsed := 20, sourceFrame := frame3 } : IterInput) =
      ({ workerCanny with processingTime := 20, mode := Mode.Errored }, []) :=
  ⟨rfl, rfl, by decide,
   (exception_propagates opsBadCanny workerCanny
      ({ elapsed := 20, sourceFrame := frame3 } : IterInput) CvErr.opError
      rfl rfl (by decide)).1⟩

end TrafficGo
